import Mathlib

set_option maxRecDepth 200000
set_option maxHeartbeats 2000000

/-!
Shallow embedding of `app.py` from the interview-question-forecaster
repository, together with proofs about the claims of its specification.

Conventions of the embedding:
* Python strings are modelled as `List Char` / `String` (code points).
* JSON numbers are modelled as exact rationals (`Rat`); CPython parses them
  to binary floats, which agree with the rational value on every literal
  used in the claims.  The special literals `NaN` / `Infinity` /
  `-Infinity`, which CPython also accepts, are modelled by dedicated
  constructors.
* Python exceptions are modelled with `Except` / `Option`; the exact
  exception messages that the claims talk about are reproduced by
  dedicated message functions.
-/

namespace InterviewForecaster

/-- Left brace character, written via its code point. -/
def lbraceC : Char := Char.ofNat 123

/-- Right brace character, written via its code point. -/
def rbraceC : Char := Char.ofNat 125

/-- Double-quote character, written via its code point. -/
def dquoteC : Char := Char.ofNat 34

/-- Backslash character, written via its code point. -/
def bslashC : Char := Char.ofNat 92

/-- Single-quote character as a one-character string (used by Python
`KeyError` messages, which wrap the missing key in single quotes). -/
def squote : String := String.mk [Char.ofNat 39]

/-- Values produced by Python `json.loads`: `None`, `bool`, numbers
(modelled as exact rationals), `str`, `list`, `dict` (an association list
in insertion order with unique keys, mirroring CPython dict semantics),
plus the non-finite float literals CPython accepts. -/
inductive Json where
  | null : Json
  | bool (b : Bool) : Json
  | num (q : Rat) : Json
  | str (s : String) : Json
  | arr (elems : List Json) : Json
  | obj (fields : List (String × Json)) : Json
  | infVal (neg : Bool) : Json
  | nanVal : Json

/-- JSON whitespace accepted between tokens by CPython (` `, tab, newline,
carriage return). -/
def jsonWs (c : Char) : Bool :=
  c = ' ' || c = '\t' || c = '\n' || c = '\r'

/-- Drop leading JSON whitespace. -/
def skipWs : List Char → List Char
  | [] => []
  | c :: cs => if jsonWs c then skipWs cs else c :: cs

/-- Numeric value of a decimal digit character. -/
def digitVal (c : Char) : Nat := c.toNat - 48

/-- Decimal digits to a natural number (most significant first). -/
def digitsToNat (ds : List Char) : Nat :=
  ds.foldl (fun acc c => acc * 10 + digitVal c) 0

/-- Integer part of a JSON number per the CPython scanner regex:
a single `0`, or a nonzero digit followed by digits.  Returns the value
and the remaining characters. -/
def parseIntPart : List Char → Option (Nat × List Char)
  | [] => none
  | c :: cs =>
    if c = '0' then some (0, cs)
    else if c.isDigit then
      some (digitsToNat ((c :: cs).takeWhile Char.isDigit),
            (c :: cs).dropWhile Char.isDigit)
    else none

/-- Fractional part `.digits` of a JSON number; when the dot is not
followed by a digit the regex group fails to match, so nothing is
consumed.  Returns (fraction value, digit count, rest). -/
def parseFracPart : List Char → Nat × Nat × List Char
  | c :: cs =>
    if c = '.' then
      let ds := cs.takeWhile Char.isDigit
      if ds.isEmpty then (0, 0, c :: cs)
      else (digitsToNat ds, ds.length, cs.dropWhile Char.isDigit)
    else (0, 0, c :: cs)
  | [] => (0, 0, [])

/-- Exponent part `[eE][+-]?digits` of a JSON number; when incomplete the
regex group fails to match and nothing is consumed. -/
def parseExpPart : List Char → Int × List Char
  | [] => (0, [])
  | c :: cs =>
    if c = 'e' || c = 'E' then
      match cs with
      | [] => (0, c :: cs)
      | s :: cs2 =>
        if s = '+' then
          let ds := cs2.takeWhile Char.isDigit
          if ds.isEmpty then (0, c :: cs)
          else ((digitsToNat ds : Int), cs2.dropWhile Char.isDigit)
        else if s = '-' then
          let ds := cs2.takeWhile Char.isDigit
          if ds.isEmpty then (0, c :: cs)
          else (-(digitsToNat ds : Int), cs2.dropWhile Char.isDigit)
        else
          let ds := cs.takeWhile Char.isDigit
          if ds.isEmpty then (0, c :: cs)
          else ((digitsToNat ds : Int), cs.dropWhile Char.isDigit)
    else (0, c :: cs)

/-- Parse one JSON number (sign, integer part, optional fraction and
exponent) to an exact rational, mirroring the CPython scanner regex. -/
def parseNumber (cs : List Char) : Option (Rat × List Char) :=
  let signAndRest : Bool × List Char :=
    match cs with
    | c :: rest => if c = '-' then (true, rest) else (false, cs)
    | [] => (false, [])
  match parseIntPart signAndRest.2 with
  | none => none
  | some (ip, cs2) =>
    let fr := parseFracPart cs2
    let ex := parseExpPart fr.2.2
    let mant : Int := (ip * 10 ^ fr.2.1 + fr.1 : Nat)
    let mant : Int := if signAndRest.1 then -mant else mant
    let e : Int := ex.1 - (fr.2.1 : Int)
    let q : Rat :=
      if 0 ≤ e then mkRat (mant * 10 ^ e.toNat) 1
      else mkRat mant (10 ^ (-e).toNat)
    some (q, ex.2)

/-- Value of a hexadecimal digit character, if any. -/
def hexVal (c : Char) : Option Nat :=
  if c.isDigit then some (c.toNat - 48)
  else if 'a' ≤ c ∧ c ≤ 'f' then some (c.toNat - 87)
  else if 'A' ≤ c ∧ c ≤ 'F' then some (c.toNat - 55)
  else none

/-- Parse exactly four hexadecimal digits (the payload of a `u` escape). -/
def parse4Hex : List Char → Option (Nat × List Char)
  | a :: b :: c :: d :: rest =>
    match hexVal a, hexVal b, hexVal c, hexVal d with
    | some x, some y, some z, some w =>
      some (((x * 16 + y) * 16 + z) * 16 + w, rest)
    | _, _, _, _ => none
  | _ => none

/-- Body of a JSON string after the opening quote, in strict mode:
control characters below 0x20 are rejected, the standard escapes and
`u`-escapes (with surrogate-pair combination) are decoded.  CPython keeps
lone surrogates as lone surrogate code units; Lean `Char` cannot represent
those, so the model rejects them (no claim exercises them). -/
def parseStringBody (fuel : Nat) (cs : List Char) : Option (List Char × List Char) :=
  match fuel with
  | 0 => none
  | fuel + 1 =>
    match cs with
    | [] => none
    | c :: rest =>
      if c = dquoteC then some ([], rest)
      else if c = bslashC then
        match rest with
        | [] => none
        | e :: rest2 =>
          if e = dquoteC || e = bslashC || e = '/' then
            match parseStringBody fuel rest2 with
            | some (s, r) => some (e :: s, r)
            | none => none
          else if e = 'b' then
            match parseStringBody fuel rest2 with
            | some (s, r) => some (Char.ofNat 8 :: s, r)
            | none => none
          else if e = 'f' then
            match parseStringBody fuel rest2 with
            | some (s, r) => some (Char.ofNat 12 :: s, r)
            | none => none
          else if e = 'n' then
            match parseStringBody fuel rest2 with
            | some (s, r) => some ('\n' :: s, r)
            | none => none
          else if e = 'r' then
            match parseStringBody fuel rest2 with
            | some (s, r) => some ('\r' :: s, r)
            | none => none
          else if e = 't' then
            match parseStringBody fuel rest2 with
            | some (s, r) => some ('\t' :: s, r)
            | none => none
          else if e = 'u' then
            match parse4Hex rest2 with
            | none => none
            | some (n, rest3) =>
              if 0xD800 ≤ n ∧ n ≤ 0xDBFF then
                match rest3 with
                | b1 :: u1 :: rest4 =>
                  if b1 = bslashC ∧ u1 = 'u' then
                    match parse4Hex rest4 with
                    | some (m, rest5) =>
                      if 0xDC00 ≤ m ∧ m ≤ 0xDFFF then
                        match parseStringBody fuel rest5 with
                        | some (s, r) =>
                          some (Char.ofNat (0x10000 + (n - 0xD800) * 0x400 + (m - 0xDC00)) :: s, r)
                        | none => none
                      else none
                    | none => none
                  else none
                | _ => none
              else if 0xDC00 ≤ n ∧ n ≤ 0xDFFF then none
              else
                match parseStringBody fuel rest3 with
                | some (s, r) => some (Char.ofNat n :: s, r)
                | none => none
          else none
      else if c.toNat < 0x20 then none
      else
        match parseStringBody fuel rest with
        | some (s, r) => some (c :: s, r)
        | none => none

/-- Insert a key/value pair into a CPython dict modelled as an association
list: an existing key keeps its position and its value is replaced, a new
key is appended. -/
def objInsert (fields : List (String × Json)) (k : String) (v : Json) :
    List (String × Json) :=
  if fields.any (fun p => p.1 = k) then
    fields.map (fun p => if p.1 = k then (k, v) else p)
  else fields ++ [(k, v)]

/-- Mode of the defunctionalized recursive-descent JSON scanner:
parse one value, the members of an object, or the elements of an array. -/
inductive PMode where
  | value : PMode
  | members (first : Bool) (acc : List (String × Json)) : PMode
  | elems (first : Bool) (acc : List Json) : PMode

/-- Match a literal keyword tail (`rue`, `alse`, `ull`, ...). -/
def matchLit (lit : List Char) (cs : List Char) (v : Json) :
    Option (Json × List Char) :=
  if cs.take lit.length = lit then some (v, cs.drop lit.length) else none

/-- Core of the CPython JSON scanner: recursive descent with explicit fuel
(structural recursion, so concrete runs reduce inside the kernel).  In
`members`/`elems` mode the characters start right after the opening
bracket (or after a comma when `first` is false). -/
def parseCore (fuel : Nat) (mode : PMode) (cs : List Char) :
    Option (Json × List Char) :=
  match fuel with
  | 0 => none
  | fuel + 1 =>
    match mode with
    | .value =>
      match skipWs cs with
      | [] => none
      | c :: rest =>
        if c = lbraceC then parseCore fuel (.members true []) rest
        else if c = '[' then parseCore fuel (.elems true []) rest
        else if c = dquoteC then
          match parseStringBody (fuel + 1) rest with
          | some (s, r) => some (.str (String.mk s), r)
          | none => none
        else if c = 't' then matchLit ['r', 'u', 'e'] rest (.bool true)
        else if c = 'f' then matchLit ['a', 'l', 's', 'e'] rest (.bool false)
        else if c = 'n' then matchLit ['u', 'l', 'l'] rest Json.null
        else if c = 'N' then matchLit ['a', 'N'] rest Json.nanVal
        else if c = 'I' then
          matchLit ['n', 'f', 'i', 'n', 'i', 't', 'y'] rest (.infVal false)
        else if c = '-' ∧ rest.take 1 = ['I'] then
          matchLit ['I', 'n', 'f', 'i', 'n', 'i', 't', 'y'] rest (.infVal true)
        else
          match parseNumber (c :: rest) with
          | some (q, r) => some (.num q, r)
          | none => none
    | .members first acc =>
      match skipWs cs with
      | [] => none
      | c :: rest =>
        if first ∧ c = rbraceC then some (.obj acc, rest)
        else if c = dquoteC then
          match parseStringBody (fuel + 1) rest with
          | none => none
          | some (k, r1) =>
            match skipWs r1 with
            | ':' :: r2 =>
              match parseCore fuel .value r2 with
              | none => none
              | some (v, r3) =>
                let acc2 := objInsert acc (String.mk k) v
                match skipWs r3 with
                | ',' :: r4 => parseCore fuel (.members false acc2) r4
                | c2 :: r4 =>
                  if c2 = rbraceC then some (.obj acc2, r4) else none
                | [] => none
            | _ => none
        else none
    | .elems first acc =>
      match skipWs cs with
      | [] => none
      | c :: rest =>
        if first ∧ c = ']' then some (.arr acc.reverse, rest)
        else
          match parseCore fuel .value (c :: rest) with
          | none => none
          | some (v, r1) =>
            match skipWs r1 with
            | ',' :: r2 => parseCore fuel (.elems false (v :: acc)) r2
            | c2 :: r2 =>
              if c2 = ']' then some (.arr (v :: acc).reverse, r2) else none
            | [] => none

/-- Model of `json.loads`: parse one JSON value and require only
whitespace after it; any error collapses to `none` (the claims only use
the distinction success / `JSONDecodeError`, not the diagnostic). -/
def jsonParse (s : String) : Option Json :=
  match parseCore (2 * s.data.length + 16) .value s.data with
  | some (v, rest) => if skipWs rest = [] then some v else none
  | none => none

/-- Failure modes of `OpenAIQuestionGenerator._parse_response`.  In the
Python code every failure surfaces as a `ValueError` (the role the
specification calls `MalformedReplyError`); the constructors record which
internal exception produced it:
* `noJson` — the inner `ValueError("No valid JSON found in response")`;
* `jsonDecode` — a `json.JSONDecodeError` (diagnostic text elided);
* `missingField f` — a `KeyError(f)` from `q_data[f]`;
* `typeError` — any other exception (subscripting or iterating a
  non-dict/non-sequence value). -/
inductive PErr where
  | noJson : PErr
  | jsonDecode : PErr
  | missingField (f : String) : PErr
  | typeError : PErr
deriving DecidableEq

/-- Message of the `ValueError` finally raised by `_parse_response`, as
produced by its two `except` clauses (inner diagnostics that the claims do
not constrain are elided). -/
def pyMessage : PErr → String
  | .noJson => "Error processing OpenAI response: No valid JSON found in response"
  | .jsonDecode => "Error parsing OpenAI response as JSON"
  | .missingField f => "Error processing OpenAI response: " ++ squote ++ f ++ squote
  | .typeError => "Error processing OpenAI response"

/-- Model of the `InterviewQuestion` dataclass.  Python dataclasses do not
enforce the annotated types, so each field holds whatever JSON value the
payload supplied. -/
structure InterviewQuestion where
  question : Json
  answer : Json
  category : Json
  confidence : Json

/-- Model of the `AnalysisResult` dataclass. -/
structure AnalysisResult where
  questions : List InterviewQuestion
  summary : Json
  key_skills : Json
  experience_gaps : Json

/-- Python subscript `j[k]` on a parsed JSON value: a present dict key
gives its value, an absent dict key raises `KeyError(k)`, and subscripting
any non-dict raises a `TypeError`. -/
def getItem (j : Json) (k : String) : Except PErr Json :=
  match j with
  | .obj fields =>
    match fields.lookup k with
    | some v => .ok v
    | none => .error (.missingField k)
  | _ => .error .typeError

/-- Python iteration `for x in j` over a parsed JSON value: lists yield
their elements, strings their one-character substrings, dicts their keys;
everything else raises a `TypeError`. -/
def pyIter : Json → Option (List Json)
  | .arr xs => some xs
  | .str s => some (s.data.map (fun c => Json.str (String.mk [c])))
  | .obj fields => some (fields.map (fun p => Json.str p.1))
  | _ => none

/-- Loop body of `_parse_response`: for each element of `questions` build
an `InterviewQuestion` from the subscripts `question`, `answer`,
`category`, `confidence` (evaluated in that order, Python keyword-argument
order); the first failing subscript aborts the whole parse. -/
def buildQuestions : List Json → Except PErr (List InterviewQuestion)
  | [] => .ok []
  | e :: rest =>
    match getItem e "question" with
    | .error err => .error err
    | .ok q =>
      match getItem e "answer" with
      | .error err => .error err
      | .ok a =>
        match getItem e "category" with
        | .error err => .error err
        | .ok c =>
          match getItem e "confidence" with
          | .error err => .error err
          | .ok cf =>
            match buildQuestions rest with
            | .error err => .error err
            | .ok qs => .ok (⟨q, a, c, cf⟩ :: qs)

/-- Dict-processing stage of `_parse_response`, applied to the value
returned by `json.loads`: iterate `data.get("questions", [])` building the
question list, then assemble the `AnalysisResult` with empty-default
fallbacks for the three scalar/list fields.  `data` is always a dict on
reachable inputs (the parsed text starts with a brace); the catch-all
`except` clause is modelled by `typeError`. -/
def buildResult (data : Json) : Except PErr AnalysisResult :=
  match data with
  | .obj fields =>
    match pyIter ((fields.lookup "questions").getD (.arr [])) with
    | none => .error .typeError
    | some elems =>
      match buildQuestions elems with
      | .error err => .error err
      | .ok qs =>
        .ok ⟨qs,
             (fields.lookup "summary").getD (.str ""),
             (fields.lookup "key_skills").getD (.arr []),
             (fields.lookup "experience_gaps").getD (.arr [])⟩
  | _ => .error .typeError

/-- Python `str.find`: lowest index of the character, `-1` when absent. -/
def pyFind (cs : List Char) (c : Char) : Int :=
  if c ∈ cs then (cs.indexOf c : Int) else -1

/-- Python `str.rfind`: highest index of the character, `-1` when absent. -/
def pyRfind (cs : List Char) (c : Char) : Int :=
  if c ∈ cs then (cs.length - 1 - cs.reverse.indexOf c : Int) else -1

/-- Payload-location step of `_parse_response` (lines 146-152):
`start_idx = content.find(lbrace)`, `end_idx = content.rfind(rbrace) + 1`,
fail when `start_idx == -1 or end_idx == 0`, otherwise slice
`content[start_idx:end_idx]`. -/
def extractJsonStr (content : String) : Option String :=
  let cs := content.data
  let startIdx := pyFind cs lbraceC
  let endIdx := pyRfind cs rbraceC + 1
  if startIdx = -1 ∨ endIdx = 0 then none
  else some (String.mk ((cs.drop startIdx.toNat).take (endIdx - startIdx).toNat))

/-- Model of `OpenAIQuestionGenerator._parse_response`: locate the
payload, run `json.loads`, process the dict. -/
def parseResponse (content : String) : Except PErr AnalysisResult :=
  match extractJsonStr content with
  | none => .error .noJson
  | some jsonStr =>
    match jsonParse jsonStr with
    | none => .error .jsonDecode
    | some data => buildResult data

/-- Composition of the payload-location step and `json.loads`; convenient
for stating hypotheses about replies whose payload parses. -/
def parsedPayload (content : String) : Option Json :=
  (extractJsonStr content).bind jsonParse

/-- Whitespace stripped by Python `str.strip()` (ASCII subset; the exotic
Unicode space characters are not exercised by any claim). -/
def pyWs (c : Char) : Bool :=
  c = ' ' || c = '\t' || c = '\n' || c = '\r' || c = Char.ofNat 11 || c = Char.ofNat 12

/-- Python `str.strip()`: drop leading and trailing whitespace. -/
def pyStrip (s : String) : String :=
  String.mk (((s.data.dropWhile pyWs).reverse.dropWhile pyWs).reverse)

/-- Python `str.lower()` (ASCII letters; no claim uses non-ASCII case). -/
def pyLower (s : String) : String :=
  String.mk (s.data.map Char.toLower)

/-- Final component of a path (`pathlib.PurePath.name`): the part after
the last slash. -/
def pyPathName (p : String) : String :=
  String.mk ((p.data.reverse.takeWhile (fun c => c ≠ '/')).reverse)

/-- `pathlib.PurePath.suffix`: with `i = name.rfind(".")`, the slice
`name[i:]` when `0 < i < len(name) - 1`, else the empty string. -/
def pathSuffix (p : String) : String :=
  let name := (pyPathName p).data
  if '.' ∈ name then
    let i := name.length - 1 - name.reverse.indexOf '.'
    if 0 < i ∧ i < name.length - 1 then String.mk (name.drop i) else ""
  else ""

/-- Errors raised out of `extract_text_from_file` /
`PDFProcessor.extract_text_from_pdf`:
* `fileNotFound` — the `FileNotFoundError` for a missing path;
* `extractionError` — the `ValueError` wrapping any `fitz` failure
  (the specification calls it `ExtractionError`);
* `readError` — an uncaught error from `open`/`read` on a text file;
* `unsupportedFormat` — the `ValueError` for an unhandled extension
  (the specification calls it `UnsupportedFormatError`), carrying the
  original, un-lowercased suffix. -/
inductive ExtractErr where
  | fileNotFound (p : String) : ExtractErr
  | extractionError (p : String) : ExtractErr
  | readError : ExtractErr
  | unsupportedFormat (ext : String) : ExtractErr
deriving DecidableEq

/-- Messages of the exceptions above, as the Python code formats them
(inner diagnostics that no claim constrains are elided). -/
def pyErrMessage : ExtractErr → String
  | .fileNotFound p => "File not found: " ++ p
  | .extractionError p => "Error extracting text from PDF " ++ p
  | .readError => ""
  | .unsupportedFormat ext =>
      "Unsupported file format: " ++ ext ++ ". Supported formats: .pdf, .txt, .md"

/-- Abstract view of the environment the extraction code runs against:
whether a path exists, what `fitz.open` + per-page `get_text` yield for it
(`none` models any exception while opening or reading the document, which
the wrapper catches wholesale), and what reading it as UTF-8 text yields
(`none` models an `OSError`/`UnicodeDecodeError`). -/
structure FileSystem where
  pathExists : String → Bool
  pdfPages : String → Option (List String)
  readText : String → Option String

/-- Model of `PDFProcessor.extract_text_from_pdf`: concatenate the text of
every page in page order (`text += page.get_text()` over
`range(doc.page_count)`), strip the final concatenation; any `fitz`
failure is wrapped into a `ValueError` naming the path. -/
def extract_text_from_pdf (docPages : Option (List String)) (pdf_path : String) :
    Except ExtractErr String :=
  match docPages with
  | some pages => .ok (pyStrip (pages.foldl (fun acc t => acc ++ t) ""))
  | none => .error (.extractionError pdf_path)

/-- Text-file branch of `extract_text_from_file`: read the whole file as
UTF-8 and strip it. -/
def textFileBranch (fs : FileSystem) (file_path : String) :
    Except ExtractErr String :=
  match fs.readText file_path with
  | some t => .ok (pyStrip t)
  | none => .error .readError

/-- Model of `extract_text_from_file` (lines 267-280): existence check,
then dispatch on the lowercased suffix, else the unsupported-format
`ValueError` naming the original suffix. -/
def extract_text_from_file (fs : FileSystem) (file_path : String) :
    Except ExtractErr String :=
  if fs.pathExists file_path = false then .error (.fileNotFound file_path)
  else if pyLower (pathSuffix file_path) = ".pdf" then
    extract_text_from_pdf (fs.pdfPages file_path) file_path
  else if pyLower (pathSuffix file_path) = ".txt" ∨ pyLower (pathSuffix file_path) = ".md" then
    textFileBranch fs file_path
  else .error (.unsupportedFormat (pathSuffix file_path))

/-- Model of one uploaded-file handling step of `main` (lines 447-451 and
456-460): `tempfile.NamedTemporaryFile(delete=False, ...)` creates the
temporary file; inside the `with` block the content is written, then
`extract_text_from_file(tmp_file.name)` runs, then `os.unlink` deletes
the file.  Because `delete=False`, the `with` block itself never deletes,
so when extraction raises, the statement `os.unlink` after it is skipped
and the exception propagates with the file still on disk.  The returned
`Bool` records whether the temporary file still exists after the step. -/
def processUpload (fs : FileSystem) (tmpPath : String) :
    Except ExtractErr String × Bool :=
  match extract_text_from_file fs tmpPath with
  | .ok content => (.ok content, false)
  | .error e => (.error e, true)

/-- Items appended to the reportlab `story` by
`PDFExporter.export_crib_sheet`; `doc.build(story)` itself is the external
rendering library. -/
inductive Flowable where
  | para (text : String) (style : String) : Flowable
  | spacer (w h : Nat) : Flowable
  | pageBreak : Flowable
deriving DecidableEq

/-- Whether a flowable is the reportlab `PageBreak`. -/
def isPageBreak : Flowable → Bool
  | .pageBreak => true
  | _ => false

/-- String payload of a parsed JSON value, when it is one. -/
def Json.asString? : Json → Option String
  | .str s => some s
  | _ => none

/-- Numeric payload of a parsed JSON value, when it is a finite number. -/
def Json.asRat? : Json → Option Rat
  | .num q => some q
  | _ => none

/-- Python truthiness of a parsed JSON value (`if result.summary:` etc.):
empty string/list/dict, zero, `None` and `False` are falsy. -/
def jsonTruthy : Json → Bool
  | .null => false
  | .bool b => b
  | .num q => q ≠ 0
  | .str s => !s.data.isEmpty
  | .arr xs => !xs.isEmpty
  | .obj fields => !fields.isEmpty
  | .infVal _ => true
  | .nanVal => true

/-- Helper for Python `str.title()`: the Boolean tracks whether the
previous character was cased. -/
def pyTitleAux : Bool → List Char → List Char
  | _, [] => []
  | prevCased, c :: cs =>
    if c.isAlpha then
      (if prevCased then c.toLower else c.toUpper) :: pyTitleAux true cs
    else c :: pyTitleAux false cs

/-- Python `str.title()`: first letter of every alphabetic run uppercased,
the rest lowercased (ASCII letters; no claim uses non-ASCII case). -/
def pyTitle (s : String) : String :=
  String.mk (pyTitleAux false s.data)

/-- Round the fraction `a / b` (for `b > 0`) half-to-even to an integer,
the rounding CPython float formatting uses, computed with integer
arithmetic. -/
def roundHalfEvenFrac (a b : Int) : Int :=
  let d := Int.fdiv a b
  let r := a - d * b
  if 2 * r < b then d
  else if b < 2 * r then d + 1
  else if d % 2 = 0 then d else d + 1

/-- Python percent formatting with one decimal digit (format spec .1 percent) on a finite number: the value times 100 with
one decimal digit, then a percent sign.  The model computes on the exact
rational (numerator times 1000 over the denominator, rounded half to
even); CPython computes on the binary double, which agrees on every value
the claims use. -/
def formatPercent (q : Rat) : String :=
  let n := roundHalfEvenFrac (q.num * 1000) (q.den : Int)
  let mag := n.natAbs
  let core := toString (mag / 10) ++ "." ++ toString (mag % 10) ++ "%"
  if n < 0 then "-" ++ core else core

/-- Separator string used by the two `.join` calls in
`export_crib_sheet`.  The source file literally contains the three
characters U+201A, U+00C4, U+00A2 (a mojibake bullet), reproduced here via
their code points. -/
def bulletSep : String :=
  String.mk [' ', Char.ofNat 0x201A, Char.ofNat 0xC4, Char.ofNat 0xA2, ' ']

/-- Summary block of the crib sheet (lines 225-228): emitted only when the
summary is truthy.  `Paragraph` needs a string; a truthy non-string summary
makes the rendering library raise, modelled as `none`. -/
def summaryBlock (r : AnalysisResult) : Option (List Flowable) :=
  if jsonTruthy r.summary then
    match r.summary.asString? with
    | some s =>
        some [.para "Summary" "QuestionStyle", .para s "AnswerStyle", .spacer 1 12]
    | none => none
  else some []

/-- Key-skills block (lines 231-235): emitted only when truthy; the
`.join` needs a list of strings, anything else raises, modelled as
`none`. -/
def skillsBlock (r : AnalysisResult) : Option (List Flowable) :=
  if jsonTruthy r.key_skills then
    match r.key_skills with
    | .arr xs =>
      match xs.mapM Json.asString? with
      | some ss =>
          some [.para "Key Skills to Highlight" "QuestionStyle",
                .para (String.intercalate bulletSep ss) "AnswerStyle",
                .spacer 1 12]
      | none => none
    | _ => none
  else some []

/-- Experience-gaps block (lines 238-242), same shape as the skills
block. -/
def gapsBlock (r : AnalysisResult) : Option (List Flowable) :=
  if jsonTruthy r.experience_gaps then
    match r.experience_gaps with
    | .arr xs =>
      match xs.mapM Json.asString? with
      | some ss =>
          some [.para "Potential Experience Gaps" "QuestionStyle",
                .para (String.intercalate bulletSep ss) "AnswerStyle",
                .spacer 1 12]
      | none => none
    | _ => none
  else some []

/-- Title, summary, skills and gaps blocks of the story (lines 221-242),
in emission order. -/
def headerBlocks (r : AnalysisResult) : Option (List Flowable) :=
  match summaryBlock r, skillsBlock r, gapsBlock r with
  | some x, some y, some z =>
      some ([.para "Interview Question Crib Sheet" "HeaderStyle", .spacer 1 12]
            ++ x ++ y ++ z)
  | _, _, _ => none

/-- Per-question story items (lines 248-262) for 1-based index `i`:
question heading, category/confidence line, answer, and the unconditional
`PageBreak` when `i == 5`.  The heading and the two text paragraphs need
string fields and a numeric confidence; other values make the rendering
library raise, modelled as `none`. -/
def questionBlock (i : Nat) (q : InterviewQuestion) : Option (List Flowable) :=
  match q.question.asString?, q.category.asString?, q.confidence.asRat?,
        q.answer.asString? with
  | some qt, some ct, some cf, some ans =>
    some ([.para ("Q" ++ toString i ++ ": " ++ qt) "QuestionStyle",
           .para ("[" ++ pyTitle ct ++ "] Confidence: " ++ formatPercent cf)
             "AnswerStyle",
           .para ans "AnswerStyle"]
          ++ if i = 5 then [.pageBreak] else [])
  | _, _, _, _ => none

/-- The `enumerate(result.questions, 1)` loop of `export_crib_sheet`. -/
def buildQuestionBlocks (i : Nat) : List InterviewQuestion → Option (List Flowable)
  | [] => some []
  | q :: rest =>
    match questionBlock i q, buildQuestionBlocks (i + 1) rest with
    | some b, some r => some (b ++ r)
    | _, _ => none

/-- Model of `PDFExporter.export_crib_sheet`: the full `story` list handed
to `doc.build`, in emission order. -/
def export_crib_sheet (r : AnalysisResult) : Option (List Flowable) :=
  match headerBlocks r, buildQuestionBlocks 1 r.questions with
  | some hb, some qb =>
      some (hb
            ++ [.para "Interview Questions & STAR Responses" "QuestionStyle",
                .spacer 1 6]
            ++ qb)
  | _, _ => none

/-! Helper lemmas shared by several claims -/

/-- Whether a subscript succeeded. -/
def exOk : Except PErr Json → Bool
  | .ok _ => true
  | .error _ => false

/-- The element has all four required fields (each subscript succeeds). -/
def hasAllFields (e : Json) : Bool :=
  exOk (getItem e "question") && exOk (getItem e "answer") &&
  exOk (getItem e "category") && exOk (getItem e "confidence")

/-- First of the four required fields absent from the element, in the
order the code subscripts them; `none` when all are present or the element
is not a dict. -/
def firstMissing (e : Json) : Option String :=
  match e with
  | .obj fields =>
    if (fields.lookup "question").isNone then some "question"
    else if (fields.lookup "answer").isNone then some "answer"
    else if (fields.lookup "category").isNone then some "category"
    else if (fields.lookup "confidence").isNone then some "confidence"
    else none
  | _ => none

/-- The question built from an element carries exactly the four subscripted
values, verbatim. -/
def questionMatches (e : Json) (q : InterviewQuestion) : Prop :=
  getItem e "question" = .ok q.question ∧
  getItem e "answer" = .ok q.answer ∧
  getItem e "category" = .ok q.category ∧
  getItem e "confidence" = .ok q.confidence

theorem exOk_iff (x : Except PErr Json) : exOk x = true ↔ ∃ v, x = .ok v := by
  cases x with
  | ok v => simp [exOk]
  | error e => simp [exOk]

theorem parseResponse_eq_buildResult (content : String) (d : Json)
    (h : parsedPayload content = some d) :
    parseResponse content = buildResult d := by
  unfold parsedPayload at h
  unfold parseResponse
  cases hx : extractJsonStr content with
  | none => rw [hx] at h; exact Option.noConfusion h
  | some s =>
    rw [hx] at h
    have h2 : jsonParse s = some d := h
    dsimp only
    rw [h2]

theorem buildQuestions_head_missing (e : Json) (rest : List Json) (f : String)
    (h : firstMissing e = some f) :
    buildQuestions (e :: rest) = .error (.missingField f) := by
  cases e with
  | obj fields =>
    cases hq : fields.lookup "question" with
    | none =>
      simp [firstMissing, hq] at h
      subst h
      simp [buildQuestions, getItem, hq]
    | some vq =>
      cases ha : fields.lookup "answer" with
      | none =>
        simp [firstMissing, hq, ha] at h
        subst h
        simp [buildQuestions, getItem, hq, ha]
      | some va =>
        cases hc : fields.lookup "category" with
        | none =>
          simp [firstMissing, hq, ha, hc] at h
          subst h
          simp [buildQuestions, getItem, hq, ha, hc]
        | some vc =>
          cases hf : fields.lookup "confidence" with
          | none =>
            simp [firstMissing, hq, ha, hc, hf] at h
            subst h
            simp [buildQuestions, getItem, hq, ha, hc, hf]
          | some vf => simp [firstMissing, hq, ha, hc, hf] at h
  | null => simp [firstMissing] at h
  | bool b => simp [firstMissing] at h
  | num q => simp [firstMissing] at h
  | str s => simp [firstMissing] at h
  | arr xs => simp [firstMissing] at h
  | infVal n => simp [firstMissing] at h
  | nanVal => simp [firstMissing] at h

theorem hasAllFields_destruct (e : Json) (h : hasAllFields e = true) :
    ∃ vq va vc vf, getItem e "question" = .ok vq ∧ getItem e "answer" = .ok va ∧
      getItem e "category" = .ok vc ∧ getItem e "confidence" = .ok vf := by
  simp only [hasAllFields, Bool.and_eq_true] at h
  obtain ⟨⟨⟨h1, h2⟩, h3⟩, h4⟩ := h
  obtain ⟨vq, hq⟩ := (exOk_iff _).1 h1
  obtain ⟨va, ha⟩ := (exOk_iff _).1 h2
  obtain ⟨vc, hc⟩ := (exOk_iff _).1 h3
  obtain ⟨vf, hf⟩ := (exOk_iff _).1 h4
  exact ⟨vq, va, vc, vf, hq, ha, hc, hf⟩

theorem buildQuestions_missing (good : List Json) (bad : Json) (rest : List Json)
    (f : String) (hgood : ∀ e ∈ good, hasAllFields e = true)
    (hbad : firstMissing bad = some f) :
    buildQuestions (good ++ bad :: rest) = .error (.missingField f) := by
  induction good with
  | nil => simpa using buildQuestions_head_missing bad rest f hbad
  | cons e es ih =>
    obtain ⟨vq, va, vc, vf, hq, ha, hc, hf⟩ :=
      hasAllFields_destruct e (hgood e (by simp))
    have hes := ih (fun x hx => hgood x (by simp [hx]))
    simp [buildQuestions, hq, ha, hc, hf, hes]

theorem buildQuestions_all_ok (elems : List Json)
    (h : ∀ e ∈ elems, hasAllFields e = true) :
    ∃ qs, buildQuestions elems = .ok qs ∧ List.Forall₂ questionMatches elems qs := by
  induction elems with
  | nil => exact ⟨[], rfl, List.Forall₂.nil⟩
  | cons e es ih =>
    obtain ⟨vq, va, vc, vf, hq, ha, hc, hf⟩ :=
      hasAllFields_destruct e (h e (by simp))
    obtain ⟨qs, hqs, hrel⟩ := ih (fun x hx => h x (by simp [hx]))
    refine ⟨⟨vq, va, vc, vf⟩ :: qs, ?_, ?_⟩
    · simp [buildQuestions, hq, ha, hc, hf, hqs]
    · exact List.Forall₂.cons ⟨hq, ha, hc, hf⟩ hrel

/-! Claim C3 -/

/-- Raw reply of claim C3: the JSON payload wrapped in prose. -/
def c3content : String :=
  "Here you go:\n\x7b\"summary\":\"S\",\"key_skills\":[\"A\"],\"experience_gaps\":[],\"questions\":[\x7b\"question\":\"Q1\",\"answer\":\"Ans\",\"category\":\"technical\",\"confidence\":0.9\x7d]\x7d\nThanks!"

/-- C3: parsing the concrete wrapped reply succeeds and yields an
AnalysisResult with summary "S", key skills ["A"], no experience gaps, and
exactly one question whose four fields are "Q1", "Ans", "technical" and
0.9 (the rational 9/10 in this model). -/
theorem parse_concrete_wrapped_reply :
    parseResponse c3content =
      .ok ⟨[⟨.str "Q1", .str "Ans", .str "technical", .num (mkRat 9 10)⟩],
           .str "S", .arr [.str "A"], .arr []⟩ := by
  rfl

/-! Claim C9 -/

/-- C9: when the payload parses as a dict with no `questions` key at all,
parsing does not fail: it returns an AnalysisResult with an empty question
list and the three other fields read with their empty-default fallbacks. -/
theorem absent_questions_key_yields_empty_list (content : String)
    (fields : List (String × Json))
    (hp : parsedPayload content = some (.obj fields))
    (hq : fields.lookup "questions" = none) :
    parseResponse content =
      .ok ⟨[], (fields.lookup "summary").getD (.str ""),
           (fields.lookup "key_skills").getD (.arr []),
           (fields.lookup "experience_gaps").getD (.arr [])⟩ := by
  rw [parseResponse_eq_buildResult content _ hp]
  simp [buildResult, hq, pyIter, buildQuestions]

/-- Reply used to witness claim C9. -/
def c9content : String := "\x7b\"summary\":\"S\"\x7d"

/-- Witness for C9 at a concrete reply whose payload has only a summary. -/
theorem absent_questions_key_yields_empty_list_witness :
    parseResponse c9content = .ok ⟨[], .str "S", .arr [], .arr []⟩ := by
  have h := absent_questions_key_yields_empty_list c9content
    [("summary", Json.str "S")] rfl rfl
  simpa using h

/-! Claim C1 -/

/-- C1 (amended): when the payload parses as a dict whose `questions`
array has a first offending element missing one of the four required
fields, `_parse_response` fails with the ValueError playing the role of
`MalformedReplyError`, and its message names the missing field — but only
the field, not the index of the offending element (the original claim,
that the message also names the index, is refuted by
`missing_field_error_omits_index`). -/
theorem missing_field_error_names_field (content : String)
    (fields : List (String × Json)) (elems good rest : List Json)
    (bad : Json) (f : String)
    (hp : parsedPayload content = some (.obj fields))
    (hq : fields.lookup "questions" = some (.arr elems))
    (hsp : elems = good ++ bad :: rest)
    (hgood : ∀ e ∈ good, hasAllFields e = true)
    (hbad : firstMissing bad = some f) :
    parseResponse content = .error (.missingField f) ∧
    pyMessage (.missingField f) =
      "Error processing OpenAI response: " ++ squote ++ f ++ squote := by
  refine ⟨?_, rfl⟩
  rw [parseResponse_eq_buildResult content _ hp]
  simp [buildResult, hq, pyIter, hsp,
        buildQuestions_missing good bad rest f hgood hbad]

/-- Offending question element of the C1 witness (missing `category`). -/
def c1bad : Json := .obj [("question", .str "Q"), ("answer", .str "A")]

/-- Reply used to witness claim C1. -/
def c1content : String :=
  "\x7b\"questions\":[\x7b\"question\":\"Q\",\"answer\":\"A\"\x7d]\x7d"

/-- Witness for C1 at a concrete reply whose single question element lacks
`category`. -/
theorem missing_field_error_names_field_witness :
    parseResponse c1content = .error (.missingField "category") ∧
    pyMessage (.missingField "category") =
      "Error processing OpenAI response: " ++ squote ++ "category" ++ squote :=
  missing_field_error_names_field c1content [("questions", .arr [c1bad])]
    [c1bad] [] [] c1bad "category" rfl rfl rfl
    (fun e he => absurd he (List.not_mem_nil e)) rfl

/-- Reply refuting the original C1: the offending element (missing
`category`) sits at index 1 of the `questions` array. -/
def c1badIndexContent : String :=
  "\x7b\"questions\":[\x7b\"question\":\"Q1\",\"answer\":\"A1\",\"category\":\"technical\",\"confidence\":0.9\x7d,\x7b\"question\":\"Q2\",\"answer\":\"A2\",\"confidence\":0.8\x7d]\x7d"

/-- C1 counterexample: for a reply whose offending element is at index 1,
the raised message is exactly the KeyError text for the field and contains
no digit at all, so it cannot name the index of the offending element. -/
theorem missing_field_error_omits_index :
    parseResponse c1badIndexContent = .error (.missingField "category") ∧
    (pyMessage (.missingField "category")).data.all (fun c => !c.isDigit) = true :=
  ⟨rfl, rfl⟩

/-! Claim C5 -/

/-- C5: when every element of the `questions` array carries all four
required fields, parsing succeeds; the built question list corresponds to
the payload array element by element in the same order (`List.Forall₂`),
each field value taken verbatim — no clamping of `confidence`, no
normalization of `category` — and the three other fields are read with
their empty-default fallbacks. -/
theorem parse_preserves_question_fields (content : String)
    (fields : List (String × Json)) (elems : List Json)
    (hp : parsedPayload content = some (.obj fields))
    (hq : fields.lookup "questions" = some (.arr elems))
    (hall : ∀ e ∈ elems, hasAllFields e = true) :
    ∃ r, parseResponse content = .ok r ∧
      List.Forall₂ questionMatches elems r.questions ∧
      r.summary = (fields.lookup "summary").getD (.str "") ∧
      r.key_skills = (fields.lookup "key_skills").getD (.arr []) ∧
      r.experience_gaps = (fields.lookup "experience_gaps").getD (.arr []) := by
  obtain ⟨qs, hqs, hrel⟩ := buildQuestions_all_ok elems hall
  refine ⟨⟨qs, (fields.lookup "summary").getD (.str ""),
          (fields.lookup "key_skills").getD (.arr []),
          (fields.lookup "experience_gaps").getD (.arr [])⟩, ?_, hrel, rfl, rfl, rfl⟩
  rw [parseResponse_eq_buildResult content _ hp]
  simp [buildResult, hq, pyIter, hqs]

/-- Question element of the C5 witness: `category` is neither of the two
expected labels and `confidence` is 3.5, outside [0, 1]. -/
def c5elem : Json :=
  .obj [("question", .str "Q"), ("answer", .str "A"),
        ("category", .str "weird"), ("confidence", .num (mkRat 7 2))]

/-- Reply used to witness claim C5. -/
def c5content : String :=
  "\x7b\"questions\":[\x7b\"question\":\"Q\",\"answer\":\"A\",\"category\":\"weird\",\"confidence\":3.5\x7d]\x7d"

/-- Witness for C5: the out-of-range confidence and non-standard category
come through verbatim. -/
theorem parse_preserves_question_fields_witness :
    parseResponse c5content =
      .ok ⟨[⟨.str "Q", .str "A", .str "weird", .num (mkRat 7 2)⟩],
           .str "", .arr [], .arr []⟩ ∧
    ∃ r, parseResponse c5content = .ok r ∧
      List.Forall₂ questionMatches [c5elem] r.questions ∧
      r.summary = (([("questions", Json.arr [c5elem])]).lookup "summary").getD (.str "") ∧
      r.key_skills = (([("questions", Json.arr [c5elem])]).lookup "key_skills").getD (.arr []) ∧
      r.experience_gaps = (([("questions", Json.arr [c5elem])]).lookup "experience_gaps").getD (.arr []) := by
  refine ⟨by rfl, ?_⟩
  exact parse_preserves_question_fields c5content [("questions", .arr [c5elem])]
    [c5elem] (by rfl) (by rfl)
    (fun e he => by rw [List.mem_singleton] at he; subst he; rfl)

/-! Claim C4 -/

/-- C4: a reply with no left brace or no right brace fails with the "no
structured payload found" error before any JSON parsing; when both braces
occur, the text handed to `json.loads` (via `parseResponse`) is exactly
the slice from the first left brace through the last right brace
inclusive. -/
theorem parse_locates_braced_payload (content : String) :
    ((lbraceC ∉ content.data ∨ rbraceC ∉ content.data) →
      parseResponse content = .error .noJson) ∧
    ((lbraceC ∈ content.data ∧ rbraceC ∈ content.data) →
      extractJsonStr content =
        some (String.mk ((content.data.drop (content.data.indexOf lbraceC)).take
          (content.data.length - 1 - content.data.reverse.indexOf rbraceC + 1 -
            content.data.indexOf lbraceC)))) := by
  constructor
  · intro h
    unfold parseResponse extractJsonStr pyFind pyRfind
    rcases h with h | h
    · simp [h]
    · simp [h]
  · rintro ⟨h1, h2⟩
    have hrev : rbraceC ∈ content.data.reverse := List.mem_reverse.2 h2
    have hlt1 : content.data.indexOf lbraceC < content.data.length :=
      List.indexOf_lt_length.2 h1
    have hlt2 : content.data.reverse.indexOf rbraceC < content.data.length := by
      have := List.indexOf_lt_length.2 hrev
      simpa using this
    unfold extractJsonStr pyFind pyRfind
    dsimp only
    rw [if_pos h1, if_pos h2, if_neg]
    · have hB : ((List.indexOf lbraceC content.data : Int)).toNat =
          List.indexOf lbraceC content.data := by omega
      have hA : ((content.data.length : Int) - 1 -
          (List.indexOf rbraceC content.data.reverse : Int) + 1 -
          (List.indexOf lbraceC content.data : Int)).toNat =
          content.data.length - 1 - List.indexOf rbraceC content.data.reverse + 1 -
            List.indexOf lbraceC content.data := by omega
      rw [hB, hA]
    · push_cast
      simp only [false_or]
      omega

/-- Witness for C4: a braceless reply fails, and for a braced reply the
extracted slice is the text between the outermost braces inclusive. -/
theorem parse_locates_braced_payload_witness :
    parseResponse "no payload here" = .error .noJson ∧
    extractJsonStr "a\x7bb\x7dc" = some "\x7bb\x7d" := by
  constructor
  · exact (parse_locates_braced_payload "no payload here").1 (Or.inl (by decide))
  · have h := (parse_locates_braced_payload "a\x7bb\x7dc").2 ⟨by decide, by decide⟩
    exact h.trans (by decide)

/-! Claim C8 -/

/-- C8: for a page-based document that opens with known per-page text,
`PDFProcessor.extract_text_from_pdf` returns the concatenation of all
pages in page order with whitespace trimmed from the final concatenation
only; when the document cannot be opened or decoded it fails with the
wrapper ValueError playing the role of `ExtractionError`, naming the
path. -/
theorem pdf_extract_joins_pages_in_order (pages : List String) (path : String) :
    extract_text_from_pdf (some pages) path = .ok (pyStrip (String.join pages)) ∧
    extract_text_from_pdf none path = .error (.extractionError path) :=
  ⟨rfl, rfl⟩

/-! Claim C2 -/

/-- Environment of the C2 failing input: the uploaded bytes are a corrupt
page-based document, so `fitz.open` raises and
`PDFProcessor.extract_text_from_pdf` turns that into a ValueError. -/
def corruptPdfFs : FileSystem :=
  ⟨fun _ => true, fun _ => none, fun _ => some "text"⟩

/-- C2 (code bug): on the error path of the extraction step the temporary
file is NOT deleted.  `NamedTemporaryFile(delete=False, ...)` never
deletes on context exit, and `os.unlink(tmp_file.name)` sits after the
`extract_text_from_file` call inside the `with` body, so when extraction
raises — here, a corrupt uploaded PDF — the unlink is skipped and the
temporary file remains on disk, contradicting the claimed every-exit-path
cleanup. -/
theorem tmpfile_remains_on_extraction_failure :
    processUpload corruptPdfFs "/tmp/upload.pdf" =
      (.error (.extractionError "/tmp/upload.pdf"), true) :=
  rfl

/-! Claim C7 -/

/-- Environment for the C7 counterexample and the C10 witness: every path
exists, page-based documents hold one page reading "hello", text files
read " t ". -/
def mixedFs : FileSystem :=
  ⟨fun _ => true, fun _ => some ["hello"], fun _ => some " t "⟩

/-- C7 counterexample: `resume.PDF` is an existing file whose extension
`.PDF` is not an element of the supported set +.pdf, .txt, .md+ as the
claim states it, yet extraction does not fail with the unsupported-format
error — the dispatch lowercases the suffix first and extracts the
document. -/
theorem uppercase_extension_not_unsupported :
    pathSuffix "resume.PDF" = ".PDF" ∧
    (pathSuffix "resume.PDF" ≠ ".pdf" ∧ pathSuffix "resume.PDF" ≠ ".txt" ∧
      pathSuffix "resume.PDF" ≠ ".md") ∧
    mixedFs.pathExists "resume.PDF" = true ∧
    extract_text_from_file mixedFs "resume.PDF" = .ok "hello" := by
  refine ⟨by decide, ⟨by decide, by decide, by decide⟩, rfl, by rfl⟩

/-- C7 (amended): for every existing file whose LOWERCASED extension is
not one of `.pdf`, `.txt`, `.md`, extraction fails with the
unsupported-format ValueError carrying the original suffix, and its
message names that suffix. -/
theorem unsupported_extension_error (fs : FileSystem) (p : String)
    (hex : fs.pathExists p = true)
    (h1 : pyLower (pathSuffix p) ≠ ".pdf")
    (h2 : pyLower (pathSuffix p) ≠ ".txt")
    (h3 : pyLower (pathSuffix p) ≠ ".md") :
    extract_text_from_file fs p = .error (.unsupportedFormat (pathSuffix p)) ∧
    pyErrMessage (.unsupportedFormat (pathSuffix p)) =
      "Unsupported file format: " ++ pathSuffix p ++
        ". Supported formats: .pdf, .txt, .md" := by
  refine ⟨?_, rfl⟩
  unfold extract_text_from_file
  simp [hex, h1, h2, h3]

/-- Witness for C7 at a `.docx` file, the extension the specification uses
as its example. -/
theorem unsupported_extension_error_witness :
    extract_text_from_file mixedFs "cv.docx" =
      .error (.unsupportedFormat ".docx") ∧
    pyErrMessage (.unsupportedFormat ".docx") =
      "Unsupported file format: .docx. Supported formats: .pdf, .txt, .md" := by
  have e : pathSuffix "cv.docx" = ".docx" := by decide
  have h := unsupported_extension_error mixedFs "cv.docx" rfl
    (by decide) (by decide) (by decide)
  rw [e] at h
  exact h

/-! Claim C10 -/

/-- C10: the extension dispatch is case-insensitive — for every existing
file whose lowercased suffix is `.pdf` the page-document branch handles
it, for `.txt`/`.md` the text branch handles it, and in all these cases
the unsupported-format error is impossible. -/
theorem extension_dispatch_case_insensitive (fs : FileSystem) (p : String)
    (hex : fs.pathExists p = true) :
    (pyLower (pathSuffix p) = ".pdf" →
      extract_text_from_file fs p = extract_text_from_pdf (fs.pdfPages p) p) ∧
    ((pyLower (pathSuffix p) = ".txt" ∨ pyLower (pathSuffix p) = ".md") →
      extract_text_from_file fs p = textFileBranch fs p) ∧
    ((pyLower (pathSuffix p) = ".pdf" ∨ pyLower (pathSuffix p) = ".txt" ∨
        pyLower (pathSuffix p) = ".md") →
      ∀ s, extract_text_from_file fs p ≠ .error (.unsupportedFormat s)) := by
  refine ⟨?_, ?_, ?_⟩
  · intro h
    unfold extract_text_from_file
    simp [hex, h]
  · intro h
    unfold extract_text_from_file
    rcases h with h | h <;> simp [hex, h]
  · intro h s
    rcases h with h | h | h
    · cases hd : fs.pdfPages p with
      | none => simp [extract_text_from_file, extract_text_from_pdf, hex, h, hd]
      | some pages => simp [extract_text_from_file, extract_text_from_pdf, hex, h, hd]
    · cases hd : fs.readText p with
      | none => simp [extract_text_from_file, textFileBranch, hex, h, hd]
      | some t => simp [extract_text_from_file, textFileBranch, hex, h, hd]
    · cases hd : fs.readText p with
      | none => simp [extract_text_from_file, textFileBranch, hex, h, hd]
      | some t => simp [extract_text_from_file, textFileBranch, hex, h, hd]

/-- Witness for C10 at files whose extensions differ from the supported
ones only in letter case. -/
theorem extension_dispatch_case_insensitive_witness :
    extract_text_from_file mixedFs "resume.PDF" =
      extract_text_from_pdf (mixedFs.pdfPages "resume.PDF") "resume.PDF" ∧
    extract_text_from_file mixedFs "notes.Txt" = textFileBranch mixedFs "notes.Txt" ∧
    extract_text_from_file mixedFs "readme.MD" = textFileBranch mixedFs "readme.MD" :=
  ⟨(extension_dispatch_case_insensitive mixedFs "resume.PDF" rfl).1 (by decide),
   (extension_dispatch_case_insensitive mixedFs "notes.Txt" rfl).2.1 (Or.inl (by decide)),
   (extension_dispatch_case_insensitive mixedFs "readme.MD" rfl).2.1 (Or.inr (by decide))⟩

/-! Claim C6 -/

theorem summaryBlock_no_break (r : AnalysisResult) (x : List Flowable)
    (h : summaryBlock r = some x) : x.countP isPageBreak = 0 := by
  unfold summaryBlock at h
  repeat split at h
  all_goals first
  | exact Option.noConfusion h
  | (simp only [Option.some.injEq] at h; subst h; rfl)

theorem skillsBlock_no_break (r : AnalysisResult) (x : List Flowable)
    (h : skillsBlock r = some x) : x.countP isPageBreak = 0 := by
  unfold skillsBlock at h
  repeat split at h
  all_goals first
  | exact Option.noConfusion h
  | (simp only [Option.some.injEq] at h; subst h; rfl)

theorem gapsBlock_no_break (r : AnalysisResult) (x : List Flowable)
    (h : gapsBlock r = some x) : x.countP isPageBreak = 0 := by
  unfold gapsBlock at h
  repeat split at h
  all_goals first
  | exact Option.noConfusion h
  | (simp only [Option.some.injEq] at h; subst h; rfl)

theorem headerBlocks_no_break (r : AnalysisResult) (hb : List Flowable)
    (h : headerBlocks r = some hb) : hb.countP isPageBreak = 0 := by
  unfold headerBlocks at h
  split at h
  · rename_i x y z hx hy hz
    simp only [Option.some.injEq] at h
    subst h
    simp only [List.countP_append, summaryBlock_no_break r x hx,
               skillsBlock_no_break r y hy, gapsBlock_no_break r z hz]
    rfl
  · exact Option.noConfusion h

theorem questionBlock_countP (i : Nat) (q : InterviewQuestion) (b : List Flowable)
    (h : questionBlock i q = some b) :
    b.countP isPageBreak = if i = 5 then 1 else 0 := by
  unfold questionBlock at h
  split at h
  · simp only [Option.some.injEq] at h
    subst h
    by_cases h5 : i = 5 <;>
      simp [h5, List.countP_append, List.countP_cons, List.countP_nil, isPageBreak]
  · exact Option.noConfusion h

theorem buildQuestionBlocks_countP (qs : List InterviewQuestion) (i : Nat)
    (qb : List Flowable) (h : buildQuestionBlocks i qs = some qb) :
    qb.countP isPageBreak = if i ≤ 5 ∧ 5 < i + qs.length then 1 else 0 := by
  induction qs generalizing i qb with
  | nil =>
    simp only [buildQuestionBlocks, Option.some.injEq] at h
    subst h
    simp only [List.countP_nil, List.length_nil]
    split
    · omega
    · rfl
  | cons q rest ih =>
    unfold buildQuestionBlocks at h
    split at h
    · rename_i b r hbq hbr
      simp only [Option.some.injEq] at h
      subst h
      rw [List.countP_append, questionBlock_countP i q b hbq, ih (i + 1) r hbr]
      simp only [List.length_cons]
      split_ifs <;> omega
    · exact Option.noConfusion h

/-- Story items the claim describes for the question at 1-based index `i`
with question text `t`, answer `a`, category `c` and confidence `r`: the
heading, the category/confidence line, the answer. -/
def qBlockOf (i : Nat) (t a c : String) (r : Rat) : List Flowable :=
  [.para ("Q" ++ toString i ++ ": " ++ t) "QuestionStyle",
   .para ("[" ++ pyTitle c ++ "] Confidence: " ++ formatPercent r) "AnswerStyle",
   .para a "AnswerStyle"]

/-- C6: for a seven-question result (string-typed fields, numeric
confidence — otherwise the rendering library raises), the exported story
is the header blocks followed, for each question in order, by the heading
`Qi: ...`, the category/confidence line and the answer, with the page
break exactly after the answer of question 5; the story holds exactly one
page break.  The final clause states the unconditional rule for every
question list of any length and content: the page-break count is one
exactly when a 5th question exists. -/
theorem export_breaks_after_fifth_question
    (sm ks gp : Json) (hb : List Flowable)
    (t1 a1 c1 t2 a2 c2 t3 a3 c3 t4 a4 c4 t5 a5 c5 t6 a6 c6 t7 a7 c7 : String)
    (r1 r2 r3 r4 r5 r6 r7 : Rat)
    (hhb : headerBlocks ⟨[⟨.str t1, .str a1, .str c1, .num r1⟩,
        ⟨.str t2, .str a2, .str c2, .num r2⟩, ⟨.str t3, .str a3, .str c3, .num r3⟩,
        ⟨.str t4, .str a4, .str c4, .num r4⟩, ⟨.str t5, .str a5, .str c5, .num r5⟩,
        ⟨.str t6, .str a6, .str c6, .num r6⟩, ⟨.str t7, .str a7, .str c7, .num r7⟩],
        sm, ks, gp⟩ = some hb) :
    export_crib_sheet ⟨[⟨.str t1, .str a1, .str c1, .num r1⟩,
        ⟨.str t2, .str a2, .str c2, .num r2⟩, ⟨.str t3, .str a3, .str c3, .num r3⟩,
        ⟨.str t4, .str a4, .str c4, .num r4⟩, ⟨.str t5, .str a5, .str c5, .num r5⟩,
        ⟨.str t6, .str a6, .str c6, .num r6⟩, ⟨.str t7, .str a7, .str c7, .num r7⟩],
        sm, ks, gp⟩ =
      some (hb
        ++ [.para "Interview Questions & STAR Responses" "QuestionStyle", .spacer 1 6]
        ++ (qBlockOf 1 t1 a1 c1 r1 ++ (qBlockOf 2 t2 a2 c2 r2 ++ (qBlockOf 3 t3 a3 c3 r3
        ++ (qBlockOf 4 t4 a4 c4 r4 ++ ((qBlockOf 5 t5 a5 c5 r5 ++ [.pageBreak])
        ++ (qBlockOf 6 t6 a6 c6 r6 ++ qBlockOf 7 t7 a7 c7 r7))))))) ∧
    (hb
        ++ [Flowable.para "Interview Questions & STAR Responses" "QuestionStyle",
            Flowable.spacer 1 6]
        ++ (qBlockOf 1 t1 a1 c1 r1 ++ (qBlockOf 2 t2 a2 c2 r2 ++ (qBlockOf 3 t3 a3 c3 r3
        ++ (qBlockOf 4 t4 a4 c4 r4 ++ ((qBlockOf 5 t5 a5 c5 r5 ++ [Flowable.pageBreak])
        ++ (qBlockOf 6 t6 a6 c6 r6 ++ qBlockOf 7 t7 a7 c7 r7))))))).countP isPageBreak = 1 ∧
    (qBlockOf 5 t5 a5 c5 r5).getLast? = some (.para a5 "AnswerStyle") ∧
    (∀ (qs : List InterviewQuestion) (qb : List Flowable),
      buildQuestionBlocks 1 qs = some qb →
      qb.countP isPageBreak = if 5 ≤ qs.length then 1 else 0) := by
  refine ⟨?_, ?_, rfl, ?_⟩
  · unfold export_crib_sheet
    rw [hhb]
    rfl
  · simp [List.countP_append, headerBlocks_no_break _ _ hhb]
    rfl
  · intro qs qb h
    rw [buildQuestionBlocks_countP qs 1 qb h]
    split_ifs <;> omega

/-- Header blocks of the C6 witness result (summary "S", one key skill,
no gaps). -/
def w6hb : List Flowable :=
  [.para "Interview Question Crib Sheet" "HeaderStyle", .spacer 1 12,
   .para "Summary" "QuestionStyle", .para "S" "AnswerStyle", .spacer 1 12,
   .para "Key Skills to Highlight" "QuestionStyle", .para "K" "AnswerStyle",
   .spacer 1 12]

/-- Witness for C6 at a concrete seven-question result: the export
succeeds with the page break exactly after the answer of question 5. -/
theorem export_breaks_after_fifth_question_witness :
    export_crib_sheet ⟨[⟨.str "q1", .str "a1", .str "technical", .num (mkRat 9 10)⟩,
        ⟨.str "q2", .str "a2", .str "behavioral", .num (mkRat 8 10)⟩,
        ⟨.str "q3", .str "a3", .str "technical", .num (mkRat 9 10)⟩,
        ⟨.str "q4", .str "a4", .str "technical", .num (mkRat 9 10)⟩,
        ⟨.str "q5", .str "a5", .str "technical", .num (mkRat 9 10)⟩,
        ⟨.str "q6", .str "a6", .str "technical", .num (mkRat 9 10)⟩,
        ⟨.str "q7", .str "a7", .str "technical", .num (mkRat 9 10)⟩],
        .str "S", .arr [.str "K"], .arr []⟩ =
      some (w6hb
        ++ [.para "Interview Questions & STAR Responses" "QuestionStyle", .spacer 1 6]
        ++ (qBlockOf 1 "q1" "a1" "technical" (mkRat 9 10)
        ++ (qBlockOf 2 "q2" "a2" "behavioral" (mkRat 8 10)
        ++ (qBlockOf 3 "q3" "a3" "technical" (mkRat 9 10)
        ++ (qBlockOf 4 "q4" "a4" "technical" (mkRat 9 10)
        ++ ((qBlockOf 5 "q5" "a5" "technical" (mkRat 9 10) ++ [.pageBreak])
        ++ (qBlockOf 6 "q6" "a6" "technical" (mkRat 9 10)
        ++ qBlockOf 7 "q7" "a7" "technical" (mkRat 9 10)))))))) ∧
    (qBlockOf 5 "q5" "a5" "technical" (mkRat 9 10)).getLast? =
      some (.para "a5" "AnswerStyle") := by
  have h := export_breaks_after_fifth_question (.str "S") (.arr [.str "K"]) (.arr [])
    w6hb "q1" "a1" "technical" "q2" "a2" "behavioral" "q3" "a3" "technical"
    "q4" "a4" "technical" "q5" "a5" "technical" "q6" "a6" "technical"
    "q7" "a7" "technical" (mkRat 9 10) (mkRat 8 10) (mkRat 9 10) (mkRat 9 10)
    (mkRat 9 10) (mkRat 9 10) (mkRat 9 10) (by rfl)
  exact ⟨h.1, h.2.2.1⟩

end InterviewForecaster
